import Mathlib

/-!
Verification of the Slack MCP server (src/slack/index.ts).

The Workspace Client (SlackClient) and the Tool Registry Adapter (SlackMCP)
are embedded shallowly.  An HTTP interaction is modelled by a FetchOracle, a
function from outbound requests to either a transport error or a decoded JSON
body; every client operation returns the ordered trace of requests it issued
together with its result.  JavaScript string truthiness, String.split,
String.trim and JSON field access are modelled at the character or field-list
level, matching the runtime semantics of the TypeScript source.
-/

/-- Decoded JSON value, as produced by response.json in the source.  Object
fields keep their order, matching JavaScript object literals. -/
inductive Json where
  | null
  | bool (b : Bool)
  | num (n : Int)
  | str (s : String)
  | arr (elems : List Json)
  | obj (fields : List (String × Json))

/-- Field access on a decoded value: some value for a present field of an
object, none otherwise (undefined in JavaScript). -/
def Json.getField : Json → String → Option Json
  | .obj fields, key => fields.lookup key
  | _, _ => none

/-- JavaScript truthiness of a decoded JSON value. -/
def jsTruthy : Json → Bool
  | .null => false
  | .bool b => b
  | .num n => n != 0
  | .str s => s != ""
  | .arr _ => true
  | .obj _ => true

/-- JavaScript truthiness of a possibly-undefined value (undefined is falsy). -/
def optTruthy : Option Json → Bool
  | none => false
  | some v => jsTruthy v

/-- JavaScript truthiness of a possibly-undefined string: true exactly for a
present, non-empty string. -/
def strTruthy : Option String → Bool
  | none => false
  | some s => s != ""

/-- String escaping of JSON.stringify for one character. -/
def escapeChar (c : Char) : String :=
  if c = '"' then "\\\""
  else if c = '\\' then "\\\\"
  else if c = '\n' then "\\n"
  else if c = '\t' then "\\t"
  else if c = '\r' then "\\r"
  else String.mk [c]

/-- String literal rendering of JSON.stringify. -/
def escapeString (s : String) : String :=
  "\"" ++ String.join (s.toList.map escapeChar) ++ "\""

mutual

/-- JSON.stringify of a decoded value. -/
def Json.render : Json → String
  | .null => "null"
  | .bool true => "true"
  | .bool false => "false"
  | .num n => toString n
  | .str s => escapeString s
  | .arr elems => "[" ++ Json.renderElems elems ++ "]"
  | .obj fields => "\x7b" ++ Json.renderFields fields ++ "\x7d"

/-- Comma-separated rendering of array elements. -/
def Json.renderElems : List Json → String
  | [] => ""
  | [v] => Json.render v
  | v :: rest => Json.render v ++ "," ++ Json.renderElems rest

/-- Comma-separated rendering of object fields. -/
def Json.renderFields : List (String × Json) → String
  | [] => ""
  | [(k, v)] => escapeString k ++ ":" ++ Json.render v
  | (k, v) :: rest => escapeString k ++ ":" ++ Json.render v ++ "," ++ Json.renderFields rest

end

/-- JavaScript String.prototype.split on a comma, at the character level.
Splitting the empty list yields one empty group, as in JavaScript. -/
def splitOnCommaChars : List Char → List (List Char)
  | [] => [[]]
  | c :: rest =>
    if c = ',' then [] :: splitOnCommaChars rest
    else
      match splitOnCommaChars rest with
      | [] => [[c]]
      | g :: gs => (c :: g) :: gs

/-- JavaScript String.prototype.trim at the character level: drop whitespace
from both ends. -/
def jsTrimChars (cs : List Char) : List Char :=
  ((cs.dropWhile Char.isWhitespace).reverse.dropWhile Char.isWhitespace).reverse

/-- JavaScript s.split on a comma for strings. -/
def jsSplitComma (s : String) : List String :=
  (splitOnCommaChars s.toList).map fun cs => String.mk cs

/-- JavaScript s.trim for strings. -/
def jsTrim (s : String) : String :=
  String.mk (jsTrimChars s.toList)

/-- The pinned channel-id parsing of getChannels: split the configured string
on commas and trim every element. -/
def parsePinned (s : String) : List String :=
  (jsSplitComma s).map jsTrim

/-- The two headers every request carries, built once in the SlackClient
constructor. -/
structure BotHeaders where
  authorization : String
  contentType : String
deriving DecidableEq

/-- One outbound HTTP request: endpoint URL, method, headers, query string
parameters in order, and the JSON body for POST requests. -/
structure Request where
  url : String
  method : String
  headers : BotHeaders
  query : List (String × String)
  body : Option Json

/-- The environment of one call: maps each issued request to a transport
failure (the fetch or body-decoding step rejecting) or a decoded JSON body. -/
def FetchOracle : Type := Request → Except Unit Json

/-- The Workspace Client state: derived headers, workspace id, and the raw
optional pinned channel-id configuration string. -/
structure SlackClient where
  botHeaders : BotHeaders
  teamId : String
  channelIds : Option String

/-- The SlackClient constructor: builds the bearer headers from the token and
stores the workspace id and pinned configuration. -/
def SlackClient.make (botToken teamId : String) (channelIds : Option String) : SlackClient :=
  { botHeaders := { authorization := "Bearer " ++ botToken, contentType := "application/json" }
    teamId := teamId
    channelIds := channelIds }

/-- The cursor query parameter, appended only when the cursor is truthy, as
the source guards with an if on the cursor. -/
def cursorParam : Option String → List (String × String)
  | none => []
  | some s => if s = "" then [] else [("cursor", s)]

/-- The open-mode listing request of getChannels. -/
def SlackClient.conversationsListRequest (c : SlackClient) (limit : Int) (cursor : Option String) : Request :=
  { url := "https://slack.com/api/conversations.list"
    method := "GET"
    headers := c.botHeaders
    query := [("types", "public_channel"), ("exclude_archived", "true"),
              ("limit", toString (min limit 200)), ("team_id", c.teamId)] ++ cursorParam cursor
    body := none }

/-- The per-id lookup request of pinned-mode getChannels. -/
def SlackClient.conversationsInfoRequest (c : SlackClient) (channelId : String) : Request :=
  { url := "https://slack.com/api/conversations.info"
    method := "GET"
    headers := c.botHeaders
    query := [("channel", channelId)]
    body := none }

/-- The filter of the pinned-mode loop: data.ok truthy, data.channel truthy,
and data.channel.is_archived falsy. -/
def channelAccepted (body : Json) : Bool :=
  optTruthy (body.getField "ok") && optTruthy (body.getField "channel") &&
    !(optTruthy ((body.getField "channel").bind fun ch => ch.getField "is_archived"))

/-- The synthesized pinned-mode response: ok true, the collected channels, and
an empty next cursor. -/
def pinnedResult (chans : List Json) : Json :=
  .obj [("ok", .bool true), ("channels", .arr chans),
        ("response_metadata", .obj [("next_cursor", .str "")])]

/-- The sequential lookup loop of pinned-mode getChannels: one lookup per id,
pushing accepted channels in order; a transport failure aborts the loop. -/
def SlackClient.pinnedLoop (c : SlackClient) (f : FetchOracle) : List String → List Request × Except Unit (List Json)
  | [] => ([], .ok [])
  | id :: rest =>
    let req := c.conversationsInfoRequest id
    match f req with
    | .error e => ([req], .error e)
    | .ok body =>
      let out := c.pinnedLoop f rest
      (req :: out.1,
        match out.2 with
        | .error e => .error e
        | .ok chans =>
          .ok (if channelAccepted body then ((body.getField "channel").getD .null) :: chans
               else chans))

/-- SlackClient.getChannels: pinned mode when the configured channel-id string
is truthy, otherwise one open listing request.  The missing limit defaults to
100 as in the source signature. -/
def SlackClient.getChannels (c : SlackClient) (limit : Option Int) (cursor : Option String) (f : FetchOracle) : List Request × Except Unit Json :=
  if strTruthy c.channelIds then
    let out := c.pinnedLoop f (parsePinned (c.channelIds.getD ""))
    (out.1, out.2.map pinnedResult)
  else
    let req := c.conversationsListRequest (limit.getD 100) cursor
    ([req], f req)

/-- The chat.postMessage request of postMessage. -/
def SlackClient.postMessageRequest (c : SlackClient) (channel_id text : String) : Request :=
  { url := "https://slack.com/api/chat.postMessage"
    method := "POST"
    headers := c.botHeaders
    query := []
    body := some (.obj [("channel", .str channel_id), ("text", .str text)]) }

/-- SlackClient.postMessage. -/
def SlackClient.postMessage (c : SlackClient) (channel_id text : String) (f : FetchOracle) : List Request × Except Unit Json :=
  let req := c.postMessageRequest channel_id text
  ([req], f req)

/-- The chat.postMessage request of postReply, carrying the parent timestamp. -/
def SlackClient.postReplyRequest (c : SlackClient) (channel_id thread_ts text : String) : Request :=
  { url := "https://slack.com/api/chat.postMessage"
    method := "POST"
    headers := c.botHeaders
    query := []
    body := some (.obj [("channel", .str channel_id), ("thread_ts", .str thread_ts),
                        ("text", .str text)]) }

/-- SlackClient.postReply. -/
def SlackClient.postReply (c : SlackClient) (channel_id thread_ts text : String) (f : FetchOracle) : List Request × Except Unit Json :=
  let req := c.postReplyRequest channel_id thread_ts text
  ([req], f req)

/-- The reactions.add request of addReaction. -/
def SlackClient.addReactionRequest (c : SlackClient) (channel_id timestamp reaction : String) : Request :=
  { url := "https://slack.com/api/reactions.add"
    method := "POST"
    headers := c.botHeaders
    query := []
    body := some (.obj [("channel", .str channel_id), ("timestamp", .str timestamp),
                        ("name", .str reaction)]) }

/-- SlackClient.addReaction. -/
def SlackClient.addReaction (c : SlackClient) (channel_id timestamp reaction : String) (f : FetchOracle) : List Request × Except Unit Json :=
  let req := c.addReactionRequest channel_id timestamp reaction
  ([req], f req)

/-- The conversations.history request of getChannelHistory: the limit is
forwarded verbatim, with no clamp. -/
def SlackClient.channelHistoryRequest (c : SlackClient) (channel_id : String) (limit : Int) : Request :=
  { url := "https://slack.com/api/conversations.history"
    method := "GET"
    headers := c.botHeaders
    query := [("channel", channel_id), ("limit", toString limit)]
    body := none }

/-- SlackClient.getChannelHistory, with the missing limit defaulting to 10. -/
def SlackClient.getChannelHistory (c : SlackClient) (channel_id : String) (limit : Option Int) (f : FetchOracle) : List Request × Except Unit Json :=
  let req := c.channelHistoryRequest channel_id (limit.getD 10)
  ([req], f req)

/-- The conversations.replies request of getThreadReplies. -/
def SlackClient.threadRepliesRequest (c : SlackClient) (channel_id thread_ts : String) : Request :=
  { url := "https://slack.com/api/conversations.replies"
    method := "GET"
    headers := c.botHeaders
    query := [("channel", channel_id), ("ts", thread_ts)]
    body := none }

/-- SlackClient.getThreadReplies. -/
def SlackClient.getThreadReplies (c : SlackClient) (channel_id thread_ts : String) (f : FetchOracle) : List Request × Except Unit Json :=
  let req := c.threadRepliesRequest channel_id thread_ts
  ([req], f req)

/-- The users.list request of getUsers: the limit is clamped to at most 200. -/
def SlackClient.usersListRequest (c : SlackClient) (limit : Int) (cursor : Option String) : Request :=
  { url := "https://slack.com/api/users.list"
    method := "GET"
    headers := c.botHeaders
    query := [("limit", toString (min limit 200)), ("team_id", c.teamId)] ++ cursorParam cursor
    body := none }

/-- SlackClient.getUsers, with the missing limit defaulting to 100. -/
def SlackClient.getUsers (c : SlackClient) (limit : Option Int) (cursor : Option String) (f : FetchOracle) : List Request × Except Unit Json :=
  let req := c.usersListRequest (limit.getD 100) cursor
  ([req], f req)

/-- The users.profile.get request of getUserProfile. -/
def SlackClient.userProfileRequest (c : SlackClient) (user_id : String) : Request :=
  { url := "https://slack.com/api/users.profile.get"
    method := "GET"
    headers := c.botHeaders
    query := [("user", user_id), ("include_labels", "true")]
    body := none }

/-- SlackClient.getUserProfile. -/
def SlackClient.getUserProfile (c : SlackClient) (user_id : String) (f : FetchOracle) : List Request × Except Unit Json :=
  let req := c.userProfileRequest user_id
  ([req], f req)

/-- One content item of a tool result. -/
structure ContentBlock where
  type : String
  text : String

/-- The validated parameters of one tool invocation.  The external schema
validation layer guarantees every required field of the invoked tool is
present, so handlers read required fields with a default that is never used
in-contract. -/
structure ToolArgs where
  limit : Option Int
  cursor : Option String
  channel_id : Option String
  text : Option String
  thread_ts : Option String
  timestamp : Option String
  reaction : Option String
  user_id : Option String

/-- One declared schema entry of a tool: parameter name, zod type, whether it
is optional, and its human-readable description. -/
structure ParamSpec where
  name : String
  type : String
  optional : Bool
  description : String

/-- One registered tool: its name, declared parameter schema, and the client
call its handler forwards to. -/
structure Tool where
  name : String
  schema : List ParamSpec
  run : ToolArgs → FetchOracle → List Request × Except Unit Json

/-- The result wrapping every handler performs: the client result serialized
by JSON.stringify into a single text content block. -/
def wrapContent (p : List Request × Except Unit Json) : List Request × Except Unit (List ContentBlock) :=
  (p.1, p.2.map fun body => [ContentBlock.mk "text" (Json.render body)])

/-- A tool handler: await the client call, then wrap the response. -/
def Tool.handler (t : Tool) (a : ToolArgs) (f : FetchOracle) : List Request × Except Unit (List ContentBlock) :=
  wrapContent (t.run a f)

/-- The tool table registered by SlackMCP.init, in registration order. -/
def SlackMCP.tools (c : SlackClient) : List Tool :=
  [ { name := "slack_list_channels"
      schema := [⟨"limit", "number", true,
                   "Maximum number of channels to return (default 100, max 200)"⟩,
                 ⟨"cursor", "string", true,
                   "Pagination cursor for next page of results"⟩]
      run := fun a f => c.getChannels a.limit a.cursor f },
    { name := "slack_post_message"
      schema := [⟨"channel_id", "string", false, "The ID of the channel to post to"⟩,
                 ⟨"text", "string", false, "The message text to post"⟩]
      run := fun a f => c.postMessage (a.channel_id.getD "") (a.text.getD "") f },
    { name := "slack_reply_to_thread"
      schema := [⟨"channel_id", "string", false,
                   "The ID of the channel containing the thread"⟩,
                 ⟨"thread_ts", "string", false,
                   "The timestamp of the parent message in the format \x271234567890.123456\x27. Timestamps in the format without the period can be converted by adding the period such that 6 numbers come after it."⟩,
                 ⟨"text", "string", false, "The reply text"⟩]
      run := fun a f =>
        c.postReply (a.channel_id.getD "") (a.thread_ts.getD "") (a.text.getD "") f },
    { name := "slack_add_reaction"
      schema := [⟨"channel_id", "string", false,
                   "The ID of the channel containing the message"⟩,
                 ⟨"timestamp", "string", false,
                   "The timestamp of the message to react to"⟩,
                 ⟨"reaction", "string", false,
                   "The name of the emoji reaction (without ::)"⟩]
      run := fun a f =>
        c.addReaction (a.channel_id.getD "") (a.timestamp.getD "") (a.reaction.getD "") f },
    { name := "slack_get_channel_history"
      schema := [⟨"channel_id", "string", false, "The ID of the channel"⟩,
                 ⟨"limit", "number", true, "Number of messages to retrieve (default 10)"⟩]
      run := fun a f => c.getChannelHistory (a.channel_id.getD "") a.limit f },
    { name := "slack_get_thread_replies"
      schema := [⟨"channel_id", "string", false,
                   "The ID of the channel containing the thread"⟩,
                 ⟨"thread_ts", "string", false,
                   "The timestamp of the parent message in the format \x271234567890.123456\x27. Timestamps in the format without the period can be converted by adding the period such that 6 numbers come after it."⟩]
      run := fun a f =>
        c.getThreadReplies (a.channel_id.getD "") (a.thread_ts.getD "") f },
    { name := "slack_get_users"
      schema := [⟨"cursor", "string", true,
                   "Pagination cursor for next page of results"⟩,
                 ⟨"limit", "number", true,
                   "Maximum number of users to return (default 100, max 200)"⟩]
      run := fun a f => c.getUsers a.limit a.cursor f },
    { name := "slack_get_user_profile"
      schema := [⟨"user_id", "string", false, "The ID of the user"⟩]
      run := fun a f => c.getUserProfile (a.user_id.getD "") f } ]

/-- The environment record the SlackMCP constructor reads.  Fields are
optional strings so that an unset variable is representable. -/
structure Env where
  SLACK_BOT_TOKEN : Option String
  SLACK_TEAM_ID : Option String
  SLACK_CHANNEL_IDS : Option String

/-- The SlackMCP constructor: throws when the bot token or the team id is
falsy (unset or empty), otherwise creates the SlackClient from exactly the
environment credentials. -/
def SlackMCP.construct (env : Env) : Except String SlackClient :=
  if strTruthy env.SLACK_BOT_TOKEN && strTruthy env.SLACK_TEAM_ID then
    .ok (SlackClient.make (env.SLACK_BOT_TOKEN.getD "") (env.SLACK_TEAM_ID.getD "")
          env.SLACK_CHANNEL_IDS)
  else
    .error "SLACK_BOT_TOKEN and SLACK_TEAM_ID environment variables are required"

/-- The channel pushed by one accepted pinned-mode lookup, as a function of
the decoded lookup body returned by the oracle: some channel exactly when the
lookup succeeded at the transport level and passed the filter. -/
def lookupChannel (c : SlackClient) (f : FetchOracle) (id : String) : Option Json :=
  match f (c.conversationsInfoRequest id) with
  | .error _ => none
  | .ok body =>
    if channelAccepted body then some ((body.getField "channel").getD .null) else none

/-- The object-body fields of a request, for comparing POST bodies. -/
def Request.bodyFields (r : Request) : List (String × Json) :=
  match r.body with
  | some (.obj fields) => fields
  | _ => []

/-- Helper for stating space-insensitivity of the pinned configuration: join
a list of ids with a separator, as a configuration author would write it. -/
def joinWith (sep : String) : List String → String
  | [] => ""
  | [s] => s
  | s :: rest => s ++ sep ++ joinWith sep rest

/-- A client with no pinned configuration, for concrete instances. -/
def clientOpen : SlackClient := SlackClient.make "tok" "T1" none

/-- A client pinned to the ids C1 and C2, the concrete scenario of the spec. -/
def clientC1 : SlackClient := SlackClient.make "tok" "T1" (some "C1,C2")

/-- An environment whose every response decodes to null. -/
def oracleNull : FetchOracle := fun _ => .ok .null

/-- An environment whose every response decodes to a provider-reported error
body with ok false. -/
def oracleErrBody : FetchOracle := fun _ =>
  .ok (.obj [("ok", .bool false), ("error", .str "channel_not_found")])

/-- An environment where every outbound request fails at the transport level. -/
def oracleDown : FetchOracle := fun _ => .error ()

/-- The oracle of the concrete pinned scenario of the spec: the lookup of C1
finds a live channel, the lookup of C2 an archived one. -/
def oracleC1 : FetchOracle := fun r =>
  if r.query = [("channel", "C1")] then
    .ok (.obj [("ok", .bool true),
               ("channel", .obj [("id", .str "C1"), ("is_archived", .bool false)])])
  else if r.query = [("channel", "C2")] then
    .ok (.obj [("ok", .bool true),
               ("channel", .obj [("id", .str "C2"), ("is_archived", .bool true)])])
  else .ok .null

/-- A wholly empty argument record. -/
def argsNone : ToolArgs :=
  { limit := none, cursor := none, channel_id := none, text := none,
    thread_ts := none, timestamp := none, reaction := none, user_id := none }

/-- The pinned lookup loop, when every lookup succeeds at the transport level,
issues exactly one lookup per id in order and collects the accepted channels
in pinned order. -/
theorem pinnedLoop_spec (c : SlackClient) (f : FetchOracle) (ids : List String)
    (h : ∀ id ∈ ids, (f (c.conversationsInfoRequest id)).isOk = true) :
    c.pinnedLoop f ids =
      (ids.map c.conversationsInfoRequest, .ok (ids.filterMap (lookupChannel c f))) := by
  induction ids with
  | nil => rfl
  | cons id rest ih =>
    have hid := h id (List.mem_cons_self id rest)
    have hrest := ih fun i hi => h i (List.mem_cons_of_mem _ hi)
    cases hf : f (c.conversationsInfoRequest id) with
    | error e => rw [hf] at hid; simp [Except.isOk, Except.toBool] at hid
    | ok body =>
      simp only [SlackClient.pinnedLoop, hf, hrest, List.map_cons, List.filterMap_cons,
        lookupChannel]
      by_cases hacc : channelAccepted body
      · simp [hacc]
      · simp [hacc]

/-- Splitting on commas never yields an empty group list. -/
theorem splitOnCommaChars_ne_nil : ∀ cs : List Char, splitOnCommaChars cs ≠ []
  | [] => by simp [splitOnCommaChars]
  | c :: rest => by
    by_cases hc : c = ','
    · simp [splitOnCommaChars, hc]
    · simp only [splitOnCommaChars, hc, if_neg]
      cases hrec : splitOnCommaChars rest with
      | nil => simp
      | cons g gs => simp

/-- A comma-free character list splits into exactly one group, itself. -/
theorem splitOnCommaChars_no_comma (cs : List Char) (h : ',' ∉ cs) :
    splitOnCommaChars cs = [cs] := by
  induction cs with
  | nil => rfl
  | cons c rest ih =>
    have hc : ¬ c = ',' := fun hcomma => h (hcomma ▸ List.mem_cons_self c rest)
    have hrest := ih fun hm => h (List.mem_cons_of_mem _ hm)
    simp [splitOnCommaChars, hc, hrest]

/-- Splitting across the first comma after a comma-free prefix. -/
theorem splitOnCommaChars_append (xs ys : List Char) (h : ',' ∉ xs) :
    splitOnCommaChars (xs ++ ',' :: ys) = xs :: splitOnCommaChars ys := by
  induction xs with
  | nil => simp [splitOnCommaChars]
  | cons x xs ih =>
    have hx : ¬ x = ',' := fun hcomma => h (hcomma ▸ List.mem_cons_self x xs)
    have hxs := ih fun hm => h (List.mem_cons_of_mem _ hm)
    simp [splitOnCommaChars, hx, hxs]

/-- Prepending a non-comma character extends the first group. -/
theorem splitOnCommaChars_cons_of_ne (c : Char) (cs : List Char) (hc : c ≠ ',')
    (g : List Char) (gs : List (List Char)) (h : splitOnCommaChars cs = g :: gs) :
    splitOnCommaChars (c :: cs) = (c :: g) :: gs := by
  simp [splitOnCommaChars, hc, h]

/-- Trimming absorbs one leading space. -/
theorem jsTrimChars_space_cons (cs : List Char) : jsTrimChars (' ' :: cs) = jsTrimChars cs := by
  have h : Char.isWhitespace ' ' = true := by decide
  simp [jsTrimChars, List.dropWhile_cons, h]

/-- The pinned parsing factored through the character level. -/
theorem parsePinned_eq (s : String) :
    parsePinned s = (splitOnCommaChars s.toList).map fun cs => String.mk (jsTrimChars cs) := by
  unfold parsePinned jsSplitComma
  rw [List.map_map]
  rfl

/-- Splitting a comma-joined list of comma-free ids recovers the ids. -/
theorem splitOnCommaChars_joinWith_comma :
    ∀ l : List String, l ≠ [] → (∀ s ∈ l, ',' ∉ s.toList) →
    splitOnCommaChars (joinWith "," l).toList = l.map String.toList := by
  intro l
  induction l with
  | nil => intro hne _; exact absurd rfl hne
  | cons s rest ih =>
    intro _ h
    cases rest with
    | nil =>
      simp only [joinWith, List.map]
      rw [splitOnCommaChars_no_comma _ (h s (List.mem_cons_self s []))]
    | cons s2 rest2 =>
      have hs : ',' ∉ s.data := h s (List.mem_cons_self _ _)
      have htail : splitOnCommaChars (joinWith "," (s2 :: rest2)).data
          = List.map String.toList (s2 :: rest2) :=
        ih (by simp) fun t ht => h t (List.mem_cons_of_mem _ ht)
      show splitOnCommaChars (s ++ "," ++ joinWith "," (s2 :: rest2)).data = _
      have hdata : (s ++ "," ++ joinWith "," (s2 :: rest2)).data
          = s.data ++ ',' :: (joinWith "," (s2 :: rest2)).data := by
        show (s.data ++ [','] ) ++ (joinWith "," (s2 :: rest2)).data = _
        simp
      rw [hdata, splitOnCommaChars_append _ _ hs, htail]
      rfl

/-- Splitting a comma-space-joined list of comma-free ids recovers the first
id and the rest each with one leading space. -/
theorem splitOnCommaChars_joinWith_commaSpace :
    ∀ (s : String) (rest : List String), (∀ t ∈ s :: rest, ',' ∉ t.toList) →
    splitOnCommaChars (joinWith ", " (s :: rest)).toList
      = s.toList :: rest.map fun t => ' ' :: t.toList := by
  intro s rest
  induction rest generalizing s with
  | nil =>
    intro h
    simp only [joinWith, List.map]
    rw [splitOnCommaChars_no_comma _ (h s (List.mem_cons_self s []))]
  | cons s2 rest2 ih =>
    intro h
    have hs : ',' ∉ s.data := h s (List.mem_cons_self _ _)
    have htail : splitOnCommaChars (joinWith ", " (s2 :: rest2)).data
        = s2.toList :: List.map (fun t => ' ' :: t.toList) rest2 :=
      ih s2 fun t ht => h t (List.mem_cons_of_mem _ ht)
    show splitOnCommaChars (s ++ ", " ++ joinWith ", " (s2 :: rest2)).data = _
    have hdata : (s ++ ", " ++ joinWith ", " (s2 :: rest2)).data
        = s.data ++ ',' :: ' ' :: (joinWith ", " (s2 :: rest2)).data := by
      show (s.data ++ [',', ' ']) ++ (joinWith ", " (s2 :: rest2)).data = _
      simp
    rw [hdata, splitOnCommaChars_append _ _ hs]
    rw [splitOnCommaChars_cons_of_ne ' ' _ (by decide) _ _ htail]
    rfl

/-- Parsing a comma-joined configuration of comma-free ids yields the trimmed
ids in order. -/
theorem parsePinned_joinWith_comma (l : List String) (hne : l ≠ [])
    (h : ∀ s ∈ l, ',' ∉ s.toList) :
    parsePinned (joinWith "," l) = l.map jsTrim := by
  rw [parsePinned_eq, splitOnCommaChars_joinWith_comma l hne h, List.map_map]
  rfl

/-- Parsing a comma-space-joined configuration of comma-free ids yields the
same trimmed ids in the same order. -/
theorem parsePinned_joinWith_commaSpace (s : String) (rest : List String)
    (h : ∀ t ∈ s :: rest, ',' ∉ t.toList) :
    parsePinned (joinWith ", " (s :: rest)) = (s :: rest).map jsTrim := by
  rw [parsePinned_eq, splitOnCommaChars_joinWith_commaSpace s rest h]
  simp only [List.map_cons, List.map_map]
  refine congrArg₂ List.cons rfl (List.map_congr_left fun t _ => ?_)
  show String.mk (jsTrimChars (' ' :: t.toList)) = jsTrim t
  rw [jsTrimChars_space_cons]
  rfl

/-- C1: for every configured pinned channel-id list, when every individual
lookup succeeds at the transport level, getChannels returns ok true, the
channels whose lookup body passed the filter (ok truthy, channel present and
truthy, is_archived falsy), in pinned order, with an empty next cursor; and
the limit and cursor arguments have no effect on the result in this mode. -/
theorem getChannels_pinned_mode_spec (c : SlackClient) (limit limit2 : Option Int)
    (cursor cursor2 : Option String) (f : FetchOracle)
    (hpin : strTruthy c.channelIds = true)
    (hok : ∀ id ∈ parsePinned (c.channelIds.getD ""),
      (f (c.conversationsInfoRequest id)).isOk = true) :
    (c.getChannels limit cursor f).2 =
      .ok (Json.obj [("ok", .bool true),
        ("channels", .arr ((parsePinned (c.channelIds.getD "")).filterMap (lookupChannel c f))),
        ("response_metadata", .obj [("next_cursor", .str "")])])
    ∧ c.getChannels limit cursor f = c.getChannels limit2 cursor2 f := by
  constructor
  · simp only [SlackClient.getChannels, hpin, if_true]
    rw [pinnedLoop_spec c f _ hok]
    rfl
  · simp only [SlackClient.getChannels, hpin, if_true]

/-- Witness for C1, the concrete scenario of the spec: pinned list C1,C2 with
C1 live and C2 archived yields exactly the C1 channel and an empty cursor. -/
theorem getChannels_pinned_mode_spec_witness :
    (clientC1.getChannels none none oracleC1).2 =
      .ok (Json.obj [("ok", .bool true),
        ("channels", .arr [.obj [("id", .str "C1"), ("is_archived", .bool false)]]),
        ("response_metadata", .obj [("next_cursor", .str "")])]) := by
  have h := getChannels_pinned_mode_spec clientC1 none none none none oracleC1
    (by decide) (by decide)
  exact h.1.trans (by rfl)

/-- C2: every Workspace Client operation returns exactly what the environment
answers for its one request, so a decoded body is passed through unchanged
(ok false included) and a transport rejection propagates as the operation
failure; the tool handler wraps an ok result as a single text block and
propagates an error result as a handler failure, never as success. -/
theorem client_transparent_passthrough (c : SlackClient) (f : FetchOracle) (a : ToolArgs)
    (ch ts txt name uid : String) (lim : Option Int) (cur : Option String) :
    ((c.postMessage ch txt f).2 = f (c.postMessageRequest ch txt)
      ∧ (c.postReply ch ts txt f).2 = f (c.postReplyRequest ch ts txt)
      ∧ (c.addReaction ch ts name f).2 = f (c.addReactionRequest ch ts name)
      ∧ (c.getChannelHistory ch lim f).2 = f (c.channelHistoryRequest ch (lim.getD 10))
      ∧ (c.getThreadReplies ch ts f).2 = f (c.threadRepliesRequest ch ts)
      ∧ (c.getUsers lim cur f).2 = f (c.usersListRequest (lim.getD 100) cur)
      ∧ (c.getUserProfile uid f).2 = f (c.userProfileRequest uid))
    ∧ (strTruthy c.channelIds = false →
        (c.getChannels lim cur f).2 = f (c.conversationsListRequest (lim.getD 100) cur))
    ∧ (∀ t : Tool, ∀ body, (t.run a f).2 = .ok body →
        (t.handler a f).2 = .ok [ContentBlock.mk "text" (Json.render body)])
    ∧ (∀ t : Tool, ∀ e, (t.run a f).2 = .error e →
        (t.handler a f).2 = .error e) := by
  refine ⟨⟨rfl, rfl, rfl, rfl, rfl, rfl, rfl⟩, ?_, ?_, ?_⟩
  · intro h
    simp [SlackClient.getChannels, h]
  · intro t body hb
    simp [Tool.handler, wrapContent, hb, Except.map]
  · intro t e he
    simp [Tool.handler, wrapContent, he, Except.map]

/-- Counterexample to C3 as stated: with a supplied cursor equal to the empty
string, the single issued listing request carries no cursor parameter at all,
so the cursor is not forwarded unchanged for every supplied cursor. -/
theorem getChannels_open_empty_cursor_dropped :
    (clientOpen.getChannels (some 50) (some "") oracleNull).1 =
      [{ url := "https://slack.com/api/conversations.list", method := "GET",
         headers := { authorization := "Bearer tok", contentType := "application/json" },
         query := [("types", "public_channel"), ("exclude_archived", "true"),
                   ("limit", "50"), ("team_id", "T1")], body := none }]
    ∧ ((clientOpen.getChannels (some 50) (some "") oracleNull).1.map
        fun r => r.query.lookup "cursor") = [none] := by
  exact ⟨rfl, rfl⟩

/-- C3 as amended: for every client with no pinned list, getChannels issues
exactly one listing request with types public_channel, exclude_archived true,
the configured team id, the limit clamped to at most 200 (default 100 when
absent), and the cursor appended unchanged when supplied and non-empty (a
missing or empty cursor adds no parameter), and returns the decoded provider
payload unmodified. -/
theorem getChannels_open_mode_spec (c : SlackClient) (lim : Option Int)
    (cur : Option String) (f : FetchOracle) (h : strTruthy c.channelIds = false) :
    c.getChannels lim cur f =
      ([c.conversationsListRequest (lim.getD 100) cur],
        f (c.conversationsListRequest (lim.getD 100) cur))
    ∧ (c.conversationsListRequest (lim.getD 100) cur).query =
        [("types", "public_channel"), ("exclude_archived", "true"),
         ("limit", toString (min (lim.getD 100) 200)), ("team_id", c.teamId)]
        ++ (match cur with
            | none => []
            | some s => if s = "" then [] else [("cursor", s)])
    ∧ (c.conversationsListRequest (lim.getD 100) cur).url =
        "https://slack.com/api/conversations.list"
    ∧ (c.conversationsListRequest (lim.getD 100) cur).method = "GET"
    ∧ (c.conversationsListRequest (lim.getD 100) cur).headers = c.botHeaders := by
  refine ⟨?_, rfl, rfl, rfl, rfl⟩
  simp [SlackClient.getChannels, h]

/-- Witness for the amended C3: an open client with limit 500 and cursor abc
issues one request with the limit clamped to 200 and the cursor forwarded. -/
theorem getChannels_open_mode_spec_witness :
    (clientOpen.getChannels (some 500) (some "abc") oracleNull).1 =
      [{ url := "https://slack.com/api/conversations.list", method := "GET",
         headers := { authorization := "Bearer tok", contentType := "application/json" },
         query := [("types", "public_channel"), ("exclude_archived", "true"),
                   ("limit", "200"), ("team_id", "T1"), ("cursor", "abc")], body := none }] := by
  have h := getChannels_open_mode_spec clientOpen (some 500) (some "abc") oracleNull rfl
  rw [h.1]
  rfl

/-- Counterexample to C4 as stated: the adapter registers eight tools, not
nine. -/
theorem tools_count_not_nine : (SlackMCP.tools clientOpen).length ≠ 9 := by
  decide

/-- C4 as amended: the adapter registers exactly eight tools, one per
supported client operation, in registration order, each with a non-empty
declared parameter schema; every handler wraps the client result, an ok body
becoming one text content block holding its JSON serialization. -/
theorem tools_registration_spec (c : SlackClient) :
    (SlackMCP.tools c).length = 8
    ∧ (SlackMCP.tools c).map Tool.name =
        ["slack_list_channels", "slack_post_message", "slack_reply_to_thread",
         "slack_add_reaction", "slack_get_channel_history", "slack_get_thread_replies",
         "slack_get_users", "slack_get_user_profile"]
    ∧ (∀ t ∈ SlackMCP.tools c, t.schema.length ≠ 0)
    ∧ (∀ t : Tool, ∀ a f, (t.handler a f).2 =
        ((t.run a f).2).map fun body => [ContentBlock.mk "text" (Json.render body)])
    ∧ (∀ t : Tool, ∀ a f body, (t.run a f).2 = .ok body →
        (t.handler a f).2 = .ok [ContentBlock.mk "text" (Json.render body)]) := by
  refine ⟨rfl, rfl, ?_, fun t a f => rfl, ?_⟩
  · intro t ht
    simp only [SlackMCP.tools, List.mem_cons, List.not_mem_nil, or_false] at ht
    rcases ht with rfl | rfl | rfl | rfl | rfl | rfl | rfl | rfl <;> simp
  · intro t a f body hb
    simp [Tool.handler, wrapContent, hb, Except.map]

/-- C5: postReply targets the same endpoint with the same method, headers and
query as postMessage, and its body is that of postMessage with one additional
thread_ts field carrying the parent timestamp. -/
theorem postReply_extends_postMessage (c : SlackClient) (ch ts txt : String) (f : FetchOracle) :
    (c.postReplyRequest ch ts txt).url = (c.postMessageRequest ch txt).url
    ∧ (c.postReplyRequest ch ts txt).method = (c.postMessageRequest ch txt).method
    ∧ (c.postReplyRequest ch ts txt).headers = (c.postMessageRequest ch txt).headers
    ∧ (c.postReplyRequest ch ts txt).query = (c.postMessageRequest ch txt).query
    ∧ (c.postMessageRequest ch txt).bodyFields = [("channel", .str ch), ("text", .str txt)]
    ∧ (c.postReplyRequest ch ts txt).bodyFields =
        [("channel", .str ch), ("thread_ts", .str ts), ("text", .str txt)]
    ∧ ((c.postReplyRequest ch ts txt).bodyFields.filter fun p => p.1 != "thread_ts")
        = (c.postMessageRequest ch txt).bodyFields
    ∧ (c.postReplyRequest ch ts txt).bodyFields.lookup "thread_ts" = some (.str ts)
    ∧ (c.postMessageRequest ch txt).bodyFields.lookup "thread_ts" = none
    ∧ c.postReply ch ts txt f =
        ([c.postReplyRequest ch ts txt], f (c.postReplyRequest ch ts txt)) :=
  ⟨rfl, rfl, rfl, rfl, rfl, rfl, rfl, rfl, rfl, rfl⟩

/-- C6: construction fails with the required-variables error whenever the bot
token or the team id is missing (unset or empty, the falsy cases of the
source guard), and succeeds with a client holding exactly the given
credentials when both are present and non-empty. -/
theorem construct_requires_credentials (env : Env) :
    ((strTruthy env.SLACK_BOT_TOKEN = false ∨ strTruthy env.SLACK_TEAM_ID = false) →
      SlackMCP.construct env =
        .error "SLACK_BOT_TOKEN and SLACK_TEAM_ID environment variables are required")
    ∧ (∀ t m, env.SLACK_BOT_TOKEN = some t → t ≠ "" →
        env.SLACK_TEAM_ID = some m → m ≠ "" →
        SlackMCP.construct env = .ok (SlackClient.make t m env.SLACK_CHANNEL_IDS)
        ∧ SlackClient.make t m env.SLACK_CHANNEL_IDS =
            { botHeaders := { authorization := "Bearer " ++ t,
                              contentType := "application/json" },
              teamId := m, channelIds := env.SLACK_CHANNEL_IDS }) := by
  constructor
  · intro h
    rcases h with h | h <;> simp [SlackMCP.construct, h]
  · intro t m ht htne hm hmne
    have h1 : strTruthy (some t) = true := by simpa [strTruthy] using htne
    have h2 : strTruthy (some m) = true := by simpa [strTruthy] using hmne
    exact ⟨by simp [SlackMCP.construct, ht, hm, h1, h2], rfl⟩

/-- C7: addReaction issues exactly one POST to the reactions.add endpoint
whose body is the object with the channel, timestamp and reaction name, and
returns the decoded response unchanged; the concrete scenario of the spec is
included. -/
theorem addReaction_request_spec (c : SlackClient) (ch ts name : String) (f : FetchOracle) :
    c.addReaction ch ts name f =
      ([c.addReactionRequest ch ts name], f (c.addReactionRequest ch ts name))
    ∧ (c.addReactionRequest ch ts name).url = "https://slack.com/api/reactions.add"
    ∧ (c.addReactionRequest ch ts name).method = "POST"
    ∧ (c.addReactionRequest ch ts name).headers = c.botHeaders
    ∧ (c.addReactionRequest ch ts name).body =
        some (.obj [("channel", .str ch), ("timestamp", .str ts), ("name", .str name)])
    ∧ (clientOpen.addReactionRequest "C1" "123.456" "+1").body =
        some (.obj [("channel", .str "C1"), ("timestamp", .str "123.456"),
                    ("name", .str "+1")]) :=
  ⟨rfl, rfl, rfl, rfl, rfl, rfl⟩

/-- C8: an empty configured pinned string behaves as open listing, exactly
like an absent one, and the pinned branch is taken if and only if the
configured string is present and non-empty. -/
theorem getChannels_mode_selection (c : SlackClient) (lim : Option Int)
    (cur : Option String) (f : FetchOracle) :
    (c.channelIds = some "" →
      c.getChannels lim cur f = ([c.conversationsListRequest (lim.getD 100) cur],
        f (c.conversationsListRequest (lim.getD 100) cur)))
    ∧ (c.channelIds = none →
      c.getChannels lim cur f = ([c.conversationsListRequest (lim.getD 100) cur],
        f (c.conversationsListRequest (lim.getD 100) cur)))
    ∧ (strTruthy c.channelIds = true ↔ ∃ s, c.channelIds = some s ∧ s ≠ "")
    ∧ (strTruthy c.channelIds = true →
      c.getChannels lim cur f =
        ((c.pinnedLoop f (parsePinned (c.channelIds.getD ""))).1,
         (c.pinnedLoop f (parsePinned (c.channelIds.getD ""))).2.map pinnedResult)) := by
  refine ⟨?_, ?_, ?_, ?_⟩
  · intro h
    simp [SlackClient.getChannels, strTruthy, h]
  · intro h
    simp [SlackClient.getChannels, strTruthy, h]
  · cases hc : c.channelIds with
    | none => simp [strTruthy]
    | some s => simp [strTruthy]
  · intro h
    simp [SlackClient.getChannels, h]

/-- C9: in pinned mode the lookups issued are exactly the configured string
split on commas with every element trimmed, in order; hence a configuration
written with spaces after the commas yields the same parsed ids, in the same
order, as the same configuration without spaces (for comma-free ids). -/
theorem pinned_ids_split_and_trim (c : SlackClient) (f : FetchOracle)
    (lim : Option Int) (cur : Option String) (l : List String)
    (s : String) (rest : List String) :
    (strTruthy c.channelIds = true →
      (∀ id ∈ parsePinned (c.channelIds.getD ""),
        (f (c.conversationsInfoRequest id)).isOk = true) →
      (c.getChannels lim cur f).1 =
        (parsePinned (c.channelIds.getD "")).map c.conversationsInfoRequest)
    ∧ (l ≠ [] → (∀ t ∈ l, ',' ∉ t.toList) →
        parsePinned (joinWith "," l) = l.map jsTrim)
    ∧ ((∀ t ∈ s :: rest, ',' ∉ t.toList) →
        parsePinned (joinWith ", " (s :: rest)) = parsePinned (joinWith "," (s :: rest))) := by
  refine ⟨?_, parsePinned_joinWith_comma l, ?_⟩
  · intro h hok
    simp only [SlackClient.getChannels, h, if_true]
    rw [pinnedLoop_spec c f _ hok]
  · intro h
    rw [parsePinned_joinWith_commaSpace s rest h,
        parsePinned_joinWith_comma (s :: rest) (by simp) h]

/-- C10: getChannelHistory forwards the limit verbatim (default 10 when
absent) with no upper clamp, while getUsers and open-mode getChannels clamp
theirs to 200: above 200 the history request carries the given value and the
other two carry 200. -/
theorem getChannelHistory_limit_unclamped (c : SlackClient) (ch : String)
    (lim : Option Int) (f : FetchOracle) :
    c.getChannelHistory ch lim f =
      ([c.channelHistoryRequest ch (lim.getD 10)],
        f (c.channelHistoryRequest ch (lim.getD 10)))
    ∧ (c.channelHistoryRequest ch (lim.getD 10)).query =
        [("channel", ch), ("limit", toString (lim.getD 10))]
    ∧ (c.getChannelHistory ch none f).1 = [c.channelHistoryRequest ch 10]
    ∧ (∀ n : Int, 200 < n →
        (c.channelHistoryRequest ch n).query.lookup "limit" = some (toString n)
        ∧ (c.usersListRequest n none).query.lookup "limit" = some "200"
        ∧ (c.conversationsListRequest n none).query.lookup "limit" = some "200") := by
  refine ⟨rfl, rfl, rfl, ?_⟩
  intro n hn
  have hmin : min n 200 = 200 := min_eq_right (le_of_lt hn)
  refine ⟨rfl, ?_, ?_⟩
  · show some (toString (min n 200)) = some "200"
    rw [hmin]
    rfl
  · show some (toString (min n 200)) = some "200"
    rw [hmin]
    rfl

/-- Witness for C2 at a concrete client: a provider body with ok false comes
back as the successful result of postMessage, and a transport rejection comes
back as its failure. -/
theorem client_transparent_passthrough_witness :
    (clientOpen.postMessage "C9" "hi" oracleErrBody).2 =
      .ok (.obj [("ok", .bool false), ("error", .str "channel_not_found")])
    ∧ (clientOpen.postMessage "C9" "hi" oracleDown).2 = .error () := by
  have h1 := client_transparent_passthrough clientOpen oracleErrBody argsNone
    "C9" "" "hi" "" "" none none
  have h2 := client_transparent_passthrough clientOpen oracleDown argsNone
    "C9" "" "hi" "" "" none none
  exact ⟨h1.1.1.trans rfl, h2.1.1.trans rfl⟩

/-- Witness for the amended C4: eight tools with the expected names. -/
theorem tools_registration_spec_witness :
    (SlackMCP.tools clientOpen).length = 8
    ∧ (SlackMCP.tools clientOpen).map Tool.name =
        ["slack_list_channels", "slack_post_message", "slack_reply_to_thread",
         "slack_add_reaction", "slack_get_channel_history", "slack_get_thread_replies",
         "slack_get_users", "slack_get_user_profile"] :=
  ⟨(tools_registration_spec clientOpen).1, (tools_registration_spec clientOpen).2.1⟩

/-- Witness for C6 at concrete environments: a missing token is fatal, and a
full environment constructs the client with exactly those credentials. -/
theorem construct_requires_credentials_witness :
    SlackMCP.construct ⟨none, some "T1", none⟩ =
      .error "SLACK_BOT_TOKEN and SLACK_TEAM_ID environment variables are required"
    ∧ SlackMCP.construct ⟨some "tok", some "T1", none⟩ =
        .ok (SlackClient.make "tok" "T1" none) := by
  refine ⟨(construct_requires_credentials _).1 (Or.inl rfl), ?_⟩
  exact ((construct_requires_credentials _).2 "tok" "T1" rfl (by decide) rfl (by decide)).1

/-- Witness for C8: a client whose pinned configuration is the empty string
issues the one open-mode listing request. -/
theorem getChannels_mode_selection_witness :
    (SlackClient.make "tok" "T1" (some "")).getChannels none none oracleNull =
      ([(SlackClient.make "tok" "T1" (some "")).conversationsListRequest 100 none],
        .ok .null) := by
  have h := (getChannels_mode_selection (SlackClient.make "tok" "T1" (some ""))
    none none oracleNull).1 rfl
  exact h.trans (by rfl)

/-- Witness for C9: the configuration written C1 comma space C2 parses to the
same ids, in the same order, as C1 comma C2. -/
theorem pinned_ids_split_and_trim_witness :
    parsePinned (joinWith ", " ["C1", "C2"]) = parsePinned (joinWith "," ["C1", "C2"])
    ∧ parsePinned (joinWith "," ["C1", "C2"]) = ["C1", "C2"] := by
  have h := pinned_ids_split_and_trim clientC1 oracleC1 none none ["C1", "C2"] "C1" ["C2"]
  exact ⟨h.2.2 (by decide), (h.2.1 (by decide) (by decide)).trans (by decide)⟩

/-- Witness for C10: a history limit of 500 goes out verbatim while the users
listing clamps 500 down to 200. -/
theorem getChannelHistory_limit_unclamped_witness :
    (clientOpen.getChannelHistory "C1" (some 500) oracleNull).1 =
      [{ url := "https://slack.com/api/conversations.history", method := "GET",
         headers := { authorization := "Bearer tok", contentType := "application/json" },
         query := [("channel", "C1"), ("limit", "500")], body := none }]
    ∧ (clientOpen.usersListRequest 500 none).query.lookup "limit" = some "200" := by
  have h := getChannelHistory_limit_unclamped clientOpen "C1" (some 500) oracleNull
  exact ⟨(congrArg Prod.fst h.1).trans rfl, (h.2.2.2 500 (by decide)).2.1⟩
